/-
  Verification of the retirement-planner withdrawal core.

  Shallow embedding of the TypeScript sources
    src/types/index.ts, src/utils/constants.ts, src/utils/taxes.ts,
    src/utils/withdrawals.ts
  into Lean 4.  JavaScript numbers are modelled as exact rationals (ℚ);
  ages and calendar years as integers (ℤ).  Records keyed by account id
  are carried positionally (the simulator creates exactly one key per
  account, in input order).  `new Date().getFullYear()` is passed in as
  an explicit `currentYear` parameter (it only shifts the `year` labels
  and cancels in every `year - currentYear` expression).
-/
import Mathlib

set_option maxRecDepth 20000

/-! ## Account taxonomy (src/types/index.ts) -/

inductive AccountType
  | rrsp
  | tfsa
  | non_registered
  | fhsa
deriving DecidableEq, Repr

inductive TaxTreatment
  | pretax
  | tax_free
  | taxable
deriving DecidableEq, Repr

inductive Owner
  | primary
  | spouse
deriving DecidableEq, Repr

/-- `getTaxTreatment` from src/types/index.ts. -/
def getTaxTreatment : AccountType → TaxTreatment
  | .rrsp => .pretax
  | .tfsa => .tax_free
  | .fhsa => .tax_free
  | .non_registered => .taxable

/-- `isPreTax` from src/types/index.ts: `type === 'rrsp'`. -/
def isPreTax (t : AccountType) : Bool :=
  t = AccountType.rrsp

/-! ## Tax constants (src/utils/constants.ts, the active 2025 module) -/

/-- A tax bracket `{min, max, rate}`; `max = none` models JS `Infinity`
(only the final bracket of each table). -/
structure TaxBracket where
  min : ℚ
  max : Option ℚ
  rate : ℚ
deriving DecidableEq, Repr

instance : Inhabited TaxBracket := ⟨⟨0, none, 0⟩⟩

def TAX_BRACKETS_FEDERAL : List TaxBracket :=
  [ ⟨0, some 57375, 0.15⟩,
    ⟨57375, some 114750, 0.205⟩,
    ⟨114750, some 177882, 0.26⟩,
    ⟨177882, some 253414, 0.29⟩,
    ⟨253414, none, 0.33⟩ ]

def TAX_BRACKETS_PROVINCIAL : List TaxBracket :=
  [ ⟨0, some 52886, 0.0505⟩,
    ⟨52886, some 105775, 0.0915⟩,
    ⟨105775, some 150000, 0.1116⟩,
    ⟨150000, some 220000, 0.1216⟩,
    ⟨220000, none, 0.1316⟩ ]

def ONTARIO_SURTAX_1_THRESHOLD : ℚ := 5710
def ONTARIO_SURTAX_1_RATE : ℚ := 0.20
def ONTARIO_SURTAX_2_THRESHOLD : ℚ := 7307
def ONTARIO_SURTAX_2_RATE : ℚ := 0.36

def BASIC_PERSONAL_AMOUNT : ℚ := 16129

def CAPITAL_GAINS_INCLUSION_RATE_BASE : ℚ := 0.50

/-! ## Tax engine (src/utils/taxes.ts) -/

/-- The loop body of `calculateBracketTax`: walk the brackets in order,
taxing `min remainingIncome bracketWidth` in each, stopping (JS `break`)
once the amount in the bracket is `≤ 0`.  A `none` upper bound is JS
`Infinity`: `min remaining ∞ = remaining`. -/
def calculateBracketTaxAux : List TaxBracket → ℚ → ℚ → ℚ → ℚ
  | [], _, _, tax => tax
  | bracket :: rest, remainingIncome, previousMax, tax =>
    let bracketWidth : ℚ :=
      match bracket.max with
      | some m => m - previousMax
      | none => remainingIncome
    let incomeInBracket := min remainingIncome bracketWidth
    if incomeInBracket ≤ 0 then tax
    else
      calculateBracketTaxAux rest (remainingIncome - incomeInBracket)
        (match bracket.max with | some m => m | none => previousMax)
        (tax + incomeInBracket * bracket.rate)

/-- `calculateBracketTax` from src/utils/taxes.ts. -/
def calculateBracketTax (taxableIncome : ℚ) (brackets : List TaxBracket) : ℚ :=
  if taxableIncome ≤ 0 then 0
  else calculateBracketTaxAux brackets taxableIncome 0 0

/-- `calculateRawFederalTax` from src/utils/taxes.ts. -/
def calculateRawFederalTax (taxableIncome : ℚ) : ℚ :=
  calculateBracketTax taxableIncome TAX_BRACKETS_FEDERAL

/-- `calculateTotalFederalTax` from src/utils/taxes.ts (the `filingStatus`
argument is `void`-discarded in the source and omitted here). -/
def calculateTotalFederalTax (ordinaryIncome capitalGains : ℚ) : ℚ :=
  let taxableCapitalGains := capitalGains * CAPITAL_GAINS_INCLUSION_RATE_BASE
  let totalTaxableIncome := ordinaryIncome + taxableCapitalGains
  if totalTaxableIncome ≤ 0 then 0
  else
    let tax := calculateRawFederalTax totalTaxableIncome
    let bpaCredit := BASIC_PERSONAL_AMOUNT * TAX_BRACKETS_FEDERAL.headI.rate
    max 0 (tax - bpaCredit)

/-- `calculateProvincialTax` from src/utils/taxes.ts.  The `_flatRate`
parameter is kept in the signature exactly as in the source, where it is
deliberately accepted and ignored. -/
def calculateProvincialTax (ordinaryIncome capitalGains _flatRate : ℚ) : ℚ :=
  let taxableCapitalGains := capitalGains * CAPITAL_GAINS_INCLUSION_RATE_BASE
  let totalTaxableIncome := ordinaryIncome + taxableCapitalGains
  if totalTaxableIncome ≤ 0 then 0
  else
    let basicTax0 := calculateBracketTax totalTaxableIncome TAX_BRACKETS_PROVINCIAL
    let provincialBPA : ℚ := 11865
    let provincialCredit := provincialBPA * TAX_BRACKETS_PROVINCIAL.headI.rate
    let basicTax := max 0 (basicTax0 - provincialCredit)
    let surtax1 :=
      if basicTax > ONTARIO_SURTAX_1_THRESHOLD
      then (basicTax - ONTARIO_SURTAX_1_THRESHOLD) * ONTARIO_SURTAX_1_RATE else 0
    let surtax2 :=
      if basicTax > ONTARIO_SURTAX_2_THRESHOLD
      then (basicTax - ONTARIO_SURTAX_2_THRESHOLD) * ONTARIO_SURTAX_2_RATE else 0
    let healthPremium : ℚ :=
      if totalTaxableIncome > 200000 then 900
      else if totalTaxableIncome > 72000 then 750
      else if totalTaxableIncome > 48000 then 600
      else if totalTaxableIncome > 36000 then 450
      else if totalTaxableIncome > 20000 then 300
      else 0
    basicTax + (surtax1 + surtax2) + healthPremium

/-! ## Minimum-distribution calculator (src/utils/constants.ts + withdrawals.ts) -/

structure RRIFEntry where
  age : ℤ
  factor : ℚ
deriving DecidableEq, Repr

def RRIF_START_AGE : ℤ := 72

def RRIF_TABLE : List RRIFEntry :=
  [ ⟨70, 0.0500⟩, ⟨71, 0.0528⟩, ⟨72, 0.0540⟩, ⟨73, 0.0553⟩, ⟨74, 0.0567⟩,
    ⟨75, 0.0582⟩, ⟨76, 0.0598⟩, ⟨77, 0.0617⟩, ⟨78, 0.0636⟩, ⟨79, 0.0658⟩,
    ⟨80, 0.0682⟩, ⟨81, 0.0708⟩, ⟨82, 0.0738⟩, ⟨83, 0.0771⟩, ⟨84, 0.0808⟩,
    ⟨85, 0.0851⟩, ⟨86, 0.0899⟩, ⟨87, 0.0955⟩, ⟨88, 0.1021⟩, ⟨89, 0.1099⟩,
    ⟨90, 0.1192⟩, ⟨91, 0.1306⟩, ⟨92, 0.1449⟩, ⟨93, 0.1634⟩, ⟨94, 0.1879⟩,
    ⟨95, 0.2000⟩ ]

/-- `getRRIFFactor` from src/utils/constants.ts. -/
def getRRIFFactor (age : ℤ) : ℚ :=
  if age < RRIF_START_AGE then 0
  else
    match RRIF_TABLE.find? (fun e => e.age == age) with
    | some entry => entry.factor
    | none => if age ≥ 95 then 0.20 else 0

/-- `calculateRRIFMinimum` from src/utils/withdrawals.ts. -/
def calculateRRIFMinimum (age : ℤ) (rrspBalance : ℚ) : ℚ :=
  if age < RRIF_START_AGE then 0
  else rrspBalance * getRRIFFactor age

-- sanity checks (kernel-evaluability of ℚ arithmetic)
example : calculateTotalFederalTax 50000 0 = 5080.65 := by with_unfolding_all rfl
example : getRRIFFactor 72 = 0.0540 := by with_unfolding_all rfl
example : getRRIFFactor 71 = 0 := by with_unfolding_all rfl
example : calculateRRIFMinimum 100 1000 = 200 := by with_unfolding_all rfl
example : calculateProvincialTax 50000 0 0.10 = 1925.8175 + 600 := by with_unfolding_all rfl

/-! ## Withdrawal simulator (src/utils/withdrawals.ts)

`performTaxOptimizedWithdrawal` mutates an `AccountState[]` in place and
fills a `byAccount` record plus a depletion-age record, both keyed by
account id (one key per account, created in input order).  We carry the
cells positionally, pairing each account cell with its `byAccount`
entry.  The TypeScript iterates over `filter`ed views of the same array;
here each pass walks the whole list and acts only on the accounts of the
step's category, which visits the same accounts in the same order.  A JS
`break` on an exhausted quota (`rrifRemaining <= 0` / `remainingNeed <= 0`)
is rendered by skipping: once the quota is `≤ 0` it is never replenished,
so the remaining iterations would not act anyway. -/

/-- Working per-account cell: an `AccountState` of withdrawals.ts together
with its slot of `accountDepletionAges` (which persists across years). -/
structure AccCell where
  id : String
  type : AccountType
  owner : Owner
  balance : ℚ
  costBasis : ℚ
  depAge : Option ℤ
deriving DecidableEq, Repr

/-- The depletion bookkeeping appearing after every withdrawal site:
`if (acc.balance <= 0 && accountDepletionAges[acc.id] === null)
   accountDepletionAges[acc.id] = age;`. -/
def depUpdate (dep : Option ℤ) (newBal : ℚ) (age : ℤ) : Option ℤ :=
  if newBal ≤ 0 ∧ dep = none then some age else dep

/-- Step 1 of `performTaxOptimizedWithdrawal`: drain RRSP accounts until the
household RRIF minimum is met.  Returns (cells, rrifRemaining,
remainingNeed, sum withdrawn in this step). -/
def rrifLoop (age : ℤ) : ℚ → ℚ → List (AccCell × ℚ) →
    List (AccCell × ℚ) × ℚ × ℚ × ℚ
  | rrifRemaining, remainingNeed, [] => ([], rrifRemaining, remainingNeed, 0)
  | rrifRemaining, remainingNeed, (c, w) :: rest =>
    if isPreTax c.type ∧ 0 < rrifRemaining then
      let withdrawal := min rrifRemaining c.balance
      let newBal := c.balance - withdrawal
      let c' := { c with balance := newBal, depAge := depUpdate c.depAge newBal age }
      let (rest', rr, rn, s) :=
        rrifLoop age (rrifRemaining - withdrawal) (max 0 (remainingNeed - withdrawal)) rest
      ((c', w + withdrawal) :: rest', rr, rn, s + withdrawal)
    else
      let (rest', rr, rn, s) := rrifLoop age rrifRemaining remainingNeed rest
      ((c, w) :: rest', rr, rn, s)

/-- Step 2: fill the household's (possibly doubled) first federal bracket
from RRSP accounts.  `rrspWithdrawal` is the running
`result.rrspWithdrawal` accumulator.  Returns (cells, rrspWithdrawal,
remainingNeed). -/
def bracketFillLoop (age : ℤ) (householdBracketCap otherIncome : ℚ) :
    ℚ → ℚ → List (AccCell × ℚ) → List (AccCell × ℚ) × ℚ × ℚ
  | rrspWithdrawal, remainingNeed, [] => ([], rrspWithdrawal, remainingNeed)
  | rrspWithdrawal, remainingNeed, (c, w) :: rest =>
    if isPreTax c.type ∧ 0 < remainingNeed then
      let householdOrdinaryIncome := rrspWithdrawal + otherIncome
      let roomInHouseholdBracket := max 0 (householdBracketCap - householdOrdinaryIncome)
      let withdrawal := min roomInHouseholdBracket (min remainingNeed c.balance)
      if 0 < withdrawal then
        let newBal := c.balance - withdrawal
        let c' := { c with balance := newBal, depAge := depUpdate c.depAge newBal age }
        let (rest', rw, rn) := bracketFillLoop age householdBracketCap otherIncome
          (rrspWithdrawal + withdrawal) (remainingNeed - withdrawal) rest
        ((c', w + withdrawal) :: rest', rw, rn)
      else
        let (rest', rw, rn) :=
          bracketFillLoop age householdBracketCap otherIncome rrspWithdrawal remainingNeed rest
        ((c, w) :: rest', rw, rn)
    else
      let (rest', rw, rn) :=
        bracketFillLoop age householdBracketCap otherIncome rrspWithdrawal remainingNeed rest
      ((c, w) :: rest', rw, rn)

/-- Step 3: drain tax-free (TFSA/FHSA) accounts.  Returns (cells,
remainingNeed, sum withdrawn in this step). -/
def taxFreeLoop (age : ℤ) : ℚ → List (AccCell × ℚ) →
    List (AccCell × ℚ) × ℚ × ℚ
  | remainingNeed, [] => ([], remainingNeed, 0)
  | remainingNeed, (c, w) :: rest =>
    if getTaxTreatment c.type = TaxTreatment.tax_free ∧ 0 < remainingNeed then
      let withdrawal := min remainingNeed c.balance
      let newBal := c.balance - withdrawal
      let c' := { c with balance := newBal, depAge := depUpdate c.depAge newBal age }
      let (rest', rn, s) := taxFreeLoop age (remainingNeed - withdrawal) rest
      ((c', w + withdrawal) :: rest', rn, s + withdrawal)
    else
      let (rest', rn, s) := taxFreeLoop age remainingNeed rest
      ((c, w) :: rest', rn, s)

/-- The realized-gain fraction of a taxable withdrawal:
`acc.costBasis > 0 ? Math.max(0, 1 - acc.costBasis / acc.balance) : 0.5`. -/
def taxableGainRatio (balance costBasis : ℚ) : ℚ :=
  if 0 < costBasis then max 0 (1 - costBasis / balance) else 0.5

/-- Step 4: drain taxable (non-registered) accounts, realizing gains and
shrinking the cost basis proportionally.  Returns (cells, remainingNeed,
sum withdrawn, sum of realized gains). -/
def taxableLoop (age : ℤ) : ℚ → List (AccCell × ℚ) →
    List (AccCell × ℚ) × ℚ × ℚ × ℚ
  | remainingNeed, [] => ([], remainingNeed, 0, 0)
  | remainingNeed, (c, w) :: rest =>
    if getTaxTreatment c.type = TaxTreatment.taxable ∧ 0 < remainingNeed then
      let withdrawal := min remainingNeed c.balance
      let gains := withdrawal * taxableGainRatio c.balance c.costBasis
      let newBal := c.balance - withdrawal
      let newBasis := if 0 < newBal then c.costBasis * (newBal / (newBal + withdrawal)) else 0
      let c' := { c with balance := newBal, costBasis := newBasis,
                         depAge := depUpdate c.depAge newBal age }
      let (rest', rn, s, g) := taxableLoop age (remainingNeed - withdrawal) rest
      ((c', w + withdrawal) :: rest', rn, s + withdrawal, g + gains)
    else
      let (rest', rn, s, g) := taxableLoop age remainingNeed rest
      ((c, w) :: rest', rn, s, g)

/-- Step 5: if need remains, drain RRSP accounts with no bracket
constraint.  Returns (cells, remainingNeed, sum withdrawn). -/
def rrspDrainLoop (age : ℤ) : ℚ → List (AccCell × ℚ) →
    List (AccCell × ℚ) × ℚ × ℚ
  | remainingNeed, [] => ([], remainingNeed, 0)
  | remainingNeed, (c, w) :: rest =>
    if isPreTax c.type ∧ 0 < remainingNeed then
      let withdrawal := min remainingNeed c.balance
      let newBal := c.balance - withdrawal
      let c' := { c with balance := newBal, depAge := depUpdate c.depAge newBal age }
      let (rest', rn, s) := rrspDrainLoop age (remainingNeed - withdrawal) rest
      ((c', w + withdrawal) :: rest', rn, s + withdrawal)
    else
      let (rest', rn, s) := rrspDrainLoop age remainingNeed rest
      ((c, w) :: rest', rn, s)

/-- The scalar fields of `WithdrawalResult` (its `byAccount` record is the
second component of each returned pair). -/
structure WithdrawalTotals where
  total : ℚ
  rrspWithdrawal : ℚ
  taxFreeWithdrawal : ℚ
  taxableWithdrawal : ℚ
  taxableGains : ℚ
deriving DecidableEq, Repr

/-- `performTaxOptimizedWithdrawal` from src/utils/withdrawals.ts.  The
`profile` argument is only consulted for spouse presence, passed here as
`hasSpouse`.  `TAX_BRACKETS_FEDERAL[0].max` is the literal `57375`, read
through `headI.max.getD 0` (the first bracket's bound is finite). -/
def performTaxOptimizedWithdrawal (cells : List AccCell)
    (targetSpending rrifMinimum otherIncome : ℚ) (hasSpouse : Bool) (age : ℤ) :
    List (AccCell × ℚ) × WithdrawalTotals :=
  let pairs0 := cells.map (fun c => (c, (0 : ℚ)))
  let remainingNeed0 := max 0 (targetSpending - otherIncome)
  let (pairs1, _rrifRem, need1, s1) := rrifLoop age rrifMinimum remainingNeed0 pairs0
  let bracket1Max := TAX_BRACKETS_FEDERAL.headI.max.getD 0
  let householdBracketCap := bracket1Max * (if hasSpouse then 2 else 1)
  let (pairs2, rrspW2, need2) :=
    bracketFillLoop age householdBracketCap otherIncome s1 need1 pairs1
  let (pairs3, need3, s3) := taxFreeLoop age need2 pairs2
  let (pairs4, need4, s4, g4) := taxableLoop age need3 pairs3
  let (pairs5, _need5, s5) := rrspDrainLoop age need4 pairs4
  (pairs5,
   { total := rrspW2 + s3 + s4 + s5,
     rrspWithdrawal := rrspW2 + s5,
     taxFreeWithdrawal := s3,
     taxableWithdrawal := s4,
     taxableGains := g4 })

/-! ## Data model (src/types/index.ts) — the fields the simulator reads -/

/-- The nested spouse `Profile`; the withdrawal code reads exactly these
four fields of `profile.spouse`. -/
structure SpouseProfile where
  currentAge : ℤ
  provinceTaxRate : ℚ
  cppOasBenefit : Option ℚ
  cppOasStartAge : Option ℤ
deriving DecidableEq, Repr

structure Profile where
  currentAge : ℤ
  retirementAge : ℤ
  lifeExpectancy : ℤ
  provinceTaxRate : ℚ
  cppOasBenefit : Option ℚ
  cppOasStartAge : Option ℤ
  spouse : Option SpouseProfile
deriving DecidableEq, Repr

structure Assumptions where
  inflationRate : ℚ
  safeWithdrawalRate : ℚ
  retirementReturnRate : ℚ
deriving DecidableEq, Repr

/-- The fields of an input `Account` the withdrawal simulator reads. -/
structure Account where
  id : String
  type : AccountType
  owner : Owner
deriving DecidableEq, Repr

/-- The fields of `AccumulationResult` the withdrawal simulator reads;
`finalBalances` is the id-keyed balance record (`|| 0` default folded into
the function, as in `finalBalances[account.id] || 0`). -/
structure AccumulationResult where
  finalBalances : String → ℚ
  totalAtRetirement : ℚ
  totalAtRetirementReal : ℚ

structure YearlyWithdrawal where
  age : ℤ
  year : ℤ
  withdrawals : List ℚ
  remainingBalances : List ℚ
  totalWithdrawal : ℚ
  cppOasIncome : ℚ
  grossIncome : ℚ
  federalTax : ℚ
  provincialTax : ℚ
  totalTax : ℚ
  afterTaxIncome : ℚ
  targetSpending : ℚ
  rmdAmount : ℚ
  totalRemainingBalance : ℚ
deriving DecidableEq, Repr

instance : Inhabited YearlyWithdrawal :=
  ⟨⟨0, 0, [], [], 0, 0, 0, 0, 0, 0, 0, 0, 0, 0⟩⟩

structure RetirementResult where
  yearlyWithdrawals : List YearlyWithdrawal
  portfolioDepletionAge : Option ℤ
  lifetimeTaxesPaid : ℚ
  sustainableMonthlyWithdrawal : ℚ
  sustainableAnnualWithdrawal : ℚ
  sustainableMonthlyWithdrawalNominal : ℚ
  sustainableAnnualWithdrawalNominal : ℚ
  accountDepletionAges : List (Option ℤ)
deriving DecidableEq, Repr

/-- JS truthiness of an optional number: `undefined` and `0` are falsy. -/
def truthyQ : Option ℚ → Bool
  | none => false
  | some x => x ≠ 0

def truthyZ : Option ℤ → Bool
  | none => false
  | some x => x ≠ 0

/-- Initial `AccountState` built in `calculateWithdrawals`: balance from
the accumulation result, cost basis `0.5 × balance` for taxable accounts. -/
def initCell (ar : AccumulationResult) (a : Account) : AccCell :=
  { id := a.id, type := a.type, owner := a.owner,
    balance := ar.finalBalances a.id,
    costBasis :=
      if getTaxTreatment a.type = TaxTreatment.taxable
      then ar.finalBalances a.id * 0.5 else 0,
    depAge := none }

/-- The mutable state threaded through the year loop of
`calculateWithdrawals`. -/
structure SimState where
  cells : List AccCell
  targetSpending : ℚ
  portfolioDepletionAge : Option ℤ
  lifetimeTaxesPaid : ℚ
  records : List YearlyWithdrawal

/-- One iteration of the year loop of `calculateWithdrawals` (loop
variable `i`, simulated age `retirementAge + i`). -/
def yearStep (profile : Profile) (asm : Assumptions) (currentYear : ℤ)
    (s : SimState) (i : ℕ) : SimState :=
  let retirementStartYear := currentYear + (profile.retirementAge - profile.currentAge)
  let age : ℤ := profile.retirementAge + i
  let year : ℤ := retirementStartYear + i
  let totalRemaining := (s.cells.map AccCell.balance).sum
  let pda :=
    if totalRemaining ≤ 0 ∧ s.portfolioDepletionAge = none
    then some age else s.portfolioDepletionAge
  -- CPP/OAS income for Primary
  let primaryCppOas : ℚ :=
    if truthyQ profile.cppOasBenefit ∧ truthyZ profile.cppOasStartAge ∧
       profile.cppOasStartAge.getD 0 ≤ age then
      (profile.cppOasBenefit.getD 0) *
        (1 + asm.inflationRate) ^ (age - profile.currentAge)
    else 0
  -- CPP/OAS income for Spouse (if applicable)
  let spouseCppOas : ℚ :=
    match profile.spouse with
    | none => 0
    | some sp =>
      if truthyQ sp.cppOasBenefit ∧ truthyZ sp.cppOasStartAge ∧
         sp.cppOasStartAge.getD 0 ≤ sp.currentAge + (year - currentYear) then
        (sp.cppOasBenefit.getD 0) * (1 + asm.inflationRate) ^ (year - currentYear)
      else 0
  let totalCppOas := primaryCppOas + spouseCppOas
  -- RRIF minimums (spouse's tracks their own age)
  let primaryRRIF := calculateRRIFMinimum age
    (((s.cells.filter (fun c => c.owner = Owner.primary ∧ isPreTax c.type)).map
      AccCell.balance).sum)
  let spouseAge : ℤ :=
    match profile.spouse with
    | some sp => sp.currentAge + (year - currentYear)
    | none => age
  let spouseRRIF := calculateRRIFMinimum spouseAge
    (((s.cells.filter (fun c => c.owner = Owner.spouse ∧ isPreTax c.type)).map
      AccCell.balance).sum)
  let totalRRIF := primaryRRIF + spouseRRIF
  -- tax-optimized withdrawal
  let pw := performTaxOptimizedWithdrawal s.cells s.targetSpending totalRRIF
    totalCppOas profile.spouse.isSome age
  let pairs := pw.1
  let wres := pw.2
  -- apply investment returns to remaining balances
  let cellsAfter := pairs.map (fun p =>
    { p.1 with balance := p.1.balance * (1 + asm.retirementReturnRate) })
  -- individual taxes
  let totalTaxableWithdrawal := wres.taxableWithdrawal
  let primaryTaxableWithdrawal :=
    ((pairs.filter (fun p =>
        p.1.owner = Owner.primary ∧ getTaxTreatment p.1.type = TaxTreatment.taxable)).map
      Prod.snd).sum
  let primaryGains :=
    if 0 < totalTaxableWithdrawal
    then wres.taxableGains * (primaryTaxableWithdrawal / totalTaxableWithdrawal)
    else 0
  let spouseGains := wres.taxableGains - primaryGains
  let primaryRRSPWithdrawal :=
    ((pairs.filter (fun p => p.1.owner = Owner.primary ∧ isPreTax p.1.type)).map
      Prod.snd).sum
  let primaryOrdinaryIncome := primaryRRSPWithdrawal + primaryCppOas
  let primaryFederalTax := calculateTotalFederalTax primaryOrdinaryIncome primaryGains
  let primaryProvincialTax :=
    calculateProvincialTax primaryOrdinaryIncome primaryGains profile.provinceTaxRate
  let spouseRRSPWithdrawal :=
    ((pairs.filter (fun p => p.1.owner = Owner.spouse ∧ isPreTax p.1.type)).map
      Prod.snd).sum
  let spouseOrdinaryIncome := spouseRRSPWithdrawal + spouseCppOas
  let spouseFederalTax := calculateTotalFederalTax spouseOrdinaryIncome spouseGains
  let spouseProvincialTax := calculateProvincialTax spouseOrdinaryIncome spouseGains
    ((profile.spouse.map SpouseProfile.provinceTaxRate).getD profile.provinceTaxRate)
  let totalTax := primaryFederalTax + primaryProvincialTax + spouseFederalTax + spouseProvincialTax
  let grossWithdrawal := wres.total
  let grossIncome := grossWithdrawal + totalCppOas
  let afterTaxIncome := grossIncome - totalTax
  let remainingBalances := cellsAfter.map AccCell.balance
  let yw : YearlyWithdrawal :=
    { age := age, year := year,
      withdrawals := pairs.map Prod.snd,
      remainingBalances := remainingBalances,
      totalWithdrawal := grossWithdrawal,
      cppOasIncome := totalCppOas,
      grossIncome := grossIncome,
      federalTax := primaryFederalTax + spouseFederalTax,
      provincialTax := primaryProvincialTax + spouseProvincialTax,
      totalTax := totalTax,
      afterTaxIncome := afterTaxIncome,
      targetSpending := s.targetSpending,
      rmdAmount := totalRRIF,
      totalRemainingBalance := remainingBalances.sum }
  { cells := cellsAfter,
    targetSpending := s.targetSpending * (1 + asm.inflationRate),
    portfolioDepletionAge := pda,
    lifetimeTaxesPaid := s.lifetimeTaxesPaid + totalTax,
    records := s.records ++ [yw] }

/-- The state entering the year loop: working copies of the account
balances, initial target spending, no depletion recorded, no records. -/
def initSimState (accounts : List Account) (asm : Assumptions)
    (ar : AccumulationResult) : SimState :=
  { cells := accounts.map (initCell ar),
    targetSpending := ar.totalAtRetirement * asm.safeWithdrawalRate,
    portfolioDepletionAge := none,
    lifetimeTaxesPaid := 0,
    records := [] }

/-- `calculateWithdrawals` from src/utils/withdrawals.ts (the exported
`simulateWithdrawals` entry point).  The year loop
`for (i = 0; i <= retirementYears; i++)` runs
`(lifeExpectancy - retirementAge + 1).toNat` times (zero times when the
horizon is negative). -/
def calculateWithdrawals (accounts : List Account) (profile : Profile)
    (asm : Assumptions) (ar : AccumulationResult) (currentYear : ℤ) :
    RetirementResult :=
  let s0 := initSimState accounts asm ar
  let n : ℕ := (profile.lifeExpectancy - profile.retirementAge + 1).toNat
  let sF := (List.range n).foldl (yearStep profile asm currentYear) s0
  { yearlyWithdrawals := sF.records,
    portfolioDepletionAge := sF.portfolioDepletionAge,
    lifetimeTaxesPaid := sF.lifetimeTaxesPaid,
    sustainableAnnualWithdrawal := ar.totalAtRetirementReal * asm.safeWithdrawalRate,
    sustainableMonthlyWithdrawal := ar.totalAtRetirementReal * asm.safeWithdrawalRate / 12,
    sustainableAnnualWithdrawalNominal := ar.totalAtRetirement * asm.safeWithdrawalRate,
    sustainableMonthlyWithdrawalNominal := ar.totalAtRetirement * asm.safeWithdrawalRate / 12,
    accountDepletionAges := sF.cells.map AccCell.depAge }

/-- The simulation state after `k` iterations of the year loop (the
trajectory of the state machine; `calculateWithdrawals` reads the final
state `simStateAfter … n` with `n = (lifeExpectancy − retirementAge + 1).toNat`). -/
def simStateAfter (accounts : List Account) (profile : Profile)
    (asm : Assumptions) (ar : AccumulationResult) (currentYear : ℤ) (k : ℕ) :
    SimState :=
  (List.range k).foldl (yearStep profile asm currentYear)
    (initSimState accounts asm ar)

/-- The per-account balances at the start of simulated year `k`: the
initial working balances for year 0, else the balances recorded at the
end of year `k − 1`. -/
def startOfYearBalances (accounts : List Account) (ar : AccumulationResult)
    (recs : List YearlyWithdrawal) : ℕ → List ℚ
  | 0 => accounts.map (fun a => ar.finalBalances a.id)
  | k + 1 => (recs.getD k default).remainingBalances

/-! ## Relations used by the invariant proofs -/

/-- How one withdrawal pass may change a (cell, byAccount-entry) pair:
identity fields unchanged, balance + cumulative withdrawal conserved, a
nonnegative balance stays in `[0, old balance]`, and a recorded depletion
age is never overwritten. -/
def StepRel (p q : AccCell × ℚ) : Prop :=
  q.1.id = p.1.id ∧ q.1.type = p.1.type ∧ q.1.owner = p.1.owner ∧
  q.1.balance + q.2 = p.1.balance + p.2 ∧
  (0 ≤ p.1.balance → 0 ≤ q.1.balance ∧ q.1.balance ≤ p.1.balance) ∧
  (∀ a : ℤ, p.1.depAge = some a → q.1.depAge = some a)

/-- The yearly ledger is well-formed w.r.t. a list of start-of-year
balances: each year withdraws at most the start balance from every
account, records only nonnegative balances, and hands its recorded
balances to the next year. -/
def GoodRecs : List ℚ → List YearlyWithdrawal → Prop
  | _, [] => True
  | startB, yw :: rest =>
      (∀ i : ℕ, yw.withdrawals.getD i 0 ≤ startB.getD i 0) ∧
      (∀ b ∈ yw.remainingBalances, 0 ≤ b) ∧
      GoodRecs yw.remainingBalances rest

/-- The balances a ledger hands to the next simulated year. -/
def lastBalances (startB : List ℚ) (recs : List YearlyWithdrawal) : List ℚ :=
  match recs.getLast? with
  | some yw => yw.remainingBalances
  | none => startB

/-- Invariant carried by the year loop: working balances are nonnegative,
they coincide with what the ledger hands to the next year, and the ledger
so far is well-formed. -/
def SimInv (startB : List ℚ) (s : SimState) : Prop :=
  (∀ c ∈ s.cells, 0 ≤ c.balance) ∧
  s.cells.map AccCell.balance = lastBalances startB s.records ∧
  GoodRecs startB s.records

/-! ## Spec-side regional-tax shape (for the refinement claim on §4.2) -/

/-- Spec §4.2: the basic regional tax — progressive bracket sum minus the
regional exemption credit, floored at zero. -/
def regionalBasicTax (ordinaryIncome capitalGains : ℚ) : ℚ :=
  max 0 (calculateBracketTax
      (ordinaryIncome + capitalGains * CAPITAL_GAINS_INCLUSION_RATE_BASE)
      TAX_BRACKETS_PROVINCIAL
    - 11865 * TAX_BRACKETS_PROVINCIAL.headI.rate)

/-- Spec §4.2: the stepped flat premium, five increasing income bands
capped at a fixed maximum (900). -/
def regionalSteppedPremium (totalTaxableIncome : ℚ) : ℚ :=
  if totalTaxableIncome > 200000 then 900
  else if totalTaxableIncome > 72000 then 750
  else if totalTaxableIncome > 48000 then 600
  else if totalTaxableIncome > 36000 then 450
  else if totalTaxableIncome > 20000 then 300
  else 0

/-! ## Concrete scenarios (from §8 of the specification / src tests) -/

/-- Scenario A account list: one RRSP (tax-deferred) and one TFSA
(tax-free), both owned by the primary. -/
def scenarioA_accounts : List Account :=
  [ ⟨"rrsp", AccountType.rrsp, Owner.primary⟩,
    ⟨"tfsa", AccountType.tfsa, Owner.primary⟩ ]

/-- Scenario A profile: single person, retires at 65, lives to 66, zero
CPP/OAS benefit. -/
def scenarioA_profile : Profile :=
  { currentAge := 65, retirementAge := 65, lifeExpectancy := 66,
    provinceTaxRate := 0.10, cppOasBenefit := some 0,
    cppOasStartAge := some 65, spouse := none }

/-- Scenario A assumptions: zero inflation and returns, 4% safe
withdrawal rate. -/
def scenarioA_assumptions : Assumptions :=
  { inflationRate := 0, safeWithdrawalRate := 0.04, retirementReturnRate := 0 }

/-- Scenario A accumulation result: balances 500,000 / 100,000, total
600,000 at retirement. -/
def scenarioA_accum : AccumulationResult :=
  { finalBalances := fun id =>
      if id = "rrsp" then 500000 else if id = "tfsa" then 100000 else 0,
    totalAtRetirement := 600000,
    totalAtRetirementReal := 600000 }

def scenarioA_result : RetirementResult :=
  calculateWithdrawals scenarioA_accounts scenarioA_profile
    scenarioA_assumptions scenarioA_accum 2025

-- sanity: the simulator evaluates on Scenario A
example : scenarioA_result.yearlyWithdrawals.map YearlyWithdrawal.withdrawals =
    [[24000, 0], [24000, 0]] := by with_unfolding_all rfl

/-- A zero-length horizon: life expectancy equal to the retirement age. -/
def degenerateProfileEq : Profile :=
  { currentAge := 65, retirementAge := 65, lifeExpectancy := 65,
    provinceTaxRate := 0.10, cppOasBenefit := none,
    cppOasStartAge := none, spouse := none }

/-- A negative horizon: life expectancy below the retirement age. -/
def degenerateProfileLt : Profile :=
  { currentAge := 60, retirementAge := 66, lifeExpectancy := 65,
    provinceTaxRate := 0.10, cppOasBenefit := none,
    cppOasStartAge := none, spouse := none }

/-- Placeholder cell used as the `getD` default when indexing cell lists. -/
def cellDefault : AccCell :=
  ⟨"", AccountType.rrsp, Owner.primary, 0, 0, none⟩

/-- A one-account scenario that depletes in its first simulated year:
a single TFSA worth 10 against a target spending of 10. -/
def depleteScenario_accounts : List Account :=
  [⟨"tfsa", AccountType.tfsa, Owner.primary⟩]

def depleteScenario_profile : Profile :=
  { currentAge := 65, retirementAge := 65, lifeExpectancy := 67,
    provinceTaxRate := 0.10, cppOasBenefit := none,
    cppOasStartAge := none, spouse := none }

def depleteScenario_assumptions : Assumptions :=
  { inflationRate := 0, safeWithdrawalRate := 1, retirementReturnRate := 0 }

def depleteScenario_accum : AccumulationResult :=
  { finalBalances := fun id => if id = "tfsa" then 10 else 0,
    totalAtRetirement := 10,
    totalAtRetirementReal := 10 }

/-- An empty household: no accounts at all (total initial portfolio 0). -/
def emptyScenario_accum : AccumulationResult :=
  { finalBalances := fun _ => 0,
    totalAtRetirement := 0,
    totalAtRetirementReal := 0 }

/-! # Helper lemmas -/

/-- Once the remaining income is zero the bracket walk stops and returns
the accumulated tax (the first bracket visited sees `min 0 width ≤ 0`). -/
theorem bracketAux_zero (bs : List TaxBracket) (pm t : ℚ) :
    calculateBracketTaxAux bs 0 pm t = t := by
  cases bs with
  | nil => rfl
  | cons b rest =>
    simp only [calculateBracketTaxAux]
    rw [if_pos (min_le_left 0 _)]

/-- Income that fits inside the first bracket of the list is taxed at that
bracket's rate only. -/
theorem bracketAux_first_fit (b : TaxBracket) (rest : List TaxBracket)
    (m y pm t : ℚ) (hm : b.max = some m) (h0 : 0 < y) (hfit : y ≤ m - pm) :
    calculateBracketTaxAux (b :: rest) y pm t = t + y * b.rate := by
  simp only [calculateBracketTaxAux, hm]
  rw [min_eq_left hfit, if_neg (not_le.mpr h0), sub_self]
  exact bracketAux_zero rest m (t + y * b.rate)

/-- An `if threshold < basic then (basic - threshold) * rate else 0`
surtax layer equals `rate * max 0 (basic - threshold)`. -/
theorem surtax_as_max (basic threshold rate : ℚ) :
    (if basic > threshold then (basic - threshold) * rate else 0) =
      rate * max 0 (basic - threshold) := by
  split_ifs with h
  · rw [max_eq_right (by linarith)]
    ring
  · rw [max_eq_left (by linarith)]
    ring

/-- Income strictly inside the first federal bracket is taxed at 15% by
the raw progressive walk. -/
theorem rawFederal_first_bracket (y : ℚ) (h0 : 0 < y) (h1 : y ≤ 57375) :
    calculateRawFederalTax y = y * 0.15 := by
  show (if y ≤ 0 then (0:ℚ)
        else calculateBracketTaxAux TAX_BRACKETS_FEDERAL y 0 0) = y * 0.15
  rw [if_neg (not_le.mpr h0)]
  rw [show TAX_BRACKETS_FEDERAL =
        (⟨0, some 57375, 0.15⟩ : TaxBracket) ::
          [⟨57375, some 114750, 0.205⟩, ⟨114750, some 177882, 0.26⟩,
           ⟨177882, some 253414, 0.29⟩, ⟨253414, none, 0.33⟩] from rfl]
  rw [bracketAux_first_fit _ _ 57375 y 0 0 rfl h0 (by linarith)]
  ring

/-- The closed form of the national tax on first-bracket ordinary income
with zero gains. -/
theorem federal_first_bracket_formula (y : ℚ) (h0 : 0 ≤ y) (h1 : y ≤ 57375) :
    calculateTotalFederalTax y 0 =
      max 0 (y * 0.15 - BASIC_PERSONAL_AMOUNT * 0.15) := by
  show (if y + 0 * CAPITAL_GAINS_INCLUSION_RATE_BASE ≤ 0 then (0:ℚ)
        else max 0 (calculateRawFederalTax (y + 0 * CAPITAL_GAINS_INCLUSION_RATE_BASE)
          - BASIC_PERSONAL_AMOUNT * TAX_BRACKETS_FEDERAL.headI.rate)) =
      max 0 (y * 0.15 - BASIC_PERSONAL_AMOUNT * 0.15)
  have hy : y + 0 * CAPITAL_GAINS_INCLUSION_RATE_BASE = y := by ring
  rw [hy]
  have hrate : TAX_BRACKETS_FEDERAL.headI.rate = 0.15 := rfl
  rw [hrate]
  rcases eq_or_lt_of_le h0 with h | h
  · rw [← h, if_pos le_rfl]
    rw [max_eq_left (by norm_num [BASIC_PERSONAL_AMOUNT])]
  · rw [if_neg (not_le.mpr h)]
    rw [rawFederal_first_bracket y h h1]

/-! # Claim theorems -/

/-- C1: For the single-person Scenario A input (tax-deferred 500,000,
tax-free 100,000, age 65→66, zero fixed income, zero rates, safe
withdrawal rate 0.04 on a 600,000 portfolio ⇒ target spending 24,000),
the first simulated year withdraws at least 24,000 from the tax-deferred
account (position 0) and exactly 0 from the tax-free account
(position 1). -/
theorem C1_scenarioA_ordering_policy :
    scenarioA_result.yearlyWithdrawals ≠ [] ∧
    24000 ≤ scenarioA_result.yearlyWithdrawals.headI.withdrawals.getD 0 0 ∧
    scenarioA_result.yearlyWithdrawals.headI.withdrawals.getD 1 0 = 0 := by
  with_unfolding_all decide

/-- C2 counterexample: the taxable step on an account with positive
balance 100 and cost basis 0 withdraws 50 but reports realized gains 25
(the 0.5 fallback fires for any nonpositive cost basis), not the full
withdrawal amount 50 the claim requires. -/
theorem C2_counterexample_zero_basis :
    taxableLoop 65 50
        [(⟨"nr", AccountType.non_registered, Owner.primary, 100, 0, none⟩, 0)] =
      ([(⟨"nr", AccountType.non_registered, Owner.primary, 50, 0, none⟩, 50)],
        0, 50, 25) ∧
    (25 : ℚ) ≠ 50 := by
  with_unfolding_all decide

/-- C2 (amended): in the taxable step, for an account with positive
balance and positive remaining need, the amount withdrawn is
`min need balance` and the realized gain is that amount times
`taxableGainRatio`; cost basis equal to the balance gives zero gain, and
cost basis zero gives gain equal to HALF the withdrawal (the 0.5
fallback applies whenever the cost basis is not positive, not only when
the balance is zero). -/
theorem C2_amended_taxable_gains (bal cb need : ℚ) (id : String) (ow : Owner)
    (dep : Option ℤ) (w0 : ℚ) (age : ℤ) (hb : 0 < bal) (hn : 0 < need) :
    (taxableLoop age need
        [(⟨id, AccountType.non_registered, ow, bal, cb, dep⟩, w0)]).2.2.1 =
      min need bal ∧
    (taxableLoop age need
        [(⟨id, AccountType.non_registered, ow, bal, cb, dep⟩, w0)]).2.2.2 =
      min need bal * taxableGainRatio bal cb ∧
    (cb = bal →
      (taxableLoop age need
        [(⟨id, AccountType.non_registered, ow, bal, cb, dep⟩, w0)]).2.2.2 = 0) ∧
    (cb = 0 →
      (taxableLoop age need
        [(⟨id, AccountType.non_registered, ow, bal, cb, dep⟩, w0)]).2.2.2 =
        min need bal * 0.5) := by
  have hcond : getTaxTreatment AccountType.non_registered = TaxTreatment.taxable
      ∧ 0 < need := ⟨rfl, hn⟩
  simp only [taxableLoop, if_pos hcond]
  refine ⟨by ring, by ring, ?_, ?_⟩
  · intro hcb
    subst hcb
    unfold taxableGainRatio
    rw [if_pos hb, div_self (ne_of_gt hb)]
    norm_num
  · intro hcb
    subst hcb
    unfold taxableGainRatio
    rw [if_neg (by norm_num)]
    ring

/-- C2 witness: the amended statement instantiated at
balance 100, cost basis 0, need 50. -/
theorem C2_amended_taxable_gains_witness :
    (0 : ℚ) < 100 ∧ (0 : ℚ) < 50 ∧
    ((taxableLoop 65 50
        [(⟨"nr", AccountType.non_registered, Owner.primary, 100, 0, none⟩, 0)]).2.2.2 =
      min 50 100 * 0.5) :=
  ⟨by norm_num, by norm_num,
    (C2_amended_taxable_gains 100 0 50 "nr" Owner.primary none 0 65
      (by norm_num) (by norm_num)).2.2.2 rfl⟩

/-- C6: for ordinary income `0 ≤ y` within the first federal bracket and
zero capital gains, the national tax is
`max 0 (y × 0.15 − BASIC_PERSONAL_AMOUNT × 0.15)`; in particular at
`y = 50,000` it is `50,000 × 0.15 − BASIC_PERSONAL_AMOUNT × 0.15`. -/
theorem C6_federal_tax_first_bracket (y : ℚ) (h0 : 0 ≤ y)
    (h1 : y ≤ TAX_BRACKETS_FEDERAL.headI.max.getD 0) :
    calculateTotalFederalTax y 0 =
      max 0 (y * 0.15 - BASIC_PERSONAL_AMOUNT * 0.15) ∧
    calculateTotalFederalTax 50000 0 =
      50000 * 0.15 - BASIC_PERSONAL_AMOUNT * 0.15 := by
  have h57 : (TAX_BRACKETS_FEDERAL.headI.max.getD 0) = 57375 := rfl
  rw [h57] at h1
  constructor
  · exact federal_first_bracket_formula y h0 h1
  · rw [federal_first_bracket_formula 50000 (by norm_num) (by norm_num)]
    rw [max_eq_right (by norm_num [BASIC_PERSONAL_AMOUNT])]

/-- C6 witness: the first-bracket formula instantiated at `y = 50,000`. -/
theorem C6_federal_tax_first_bracket_witness :
    (0 : ℚ) ≤ 50000 ∧ (50000 : ℚ) ≤ TAX_BRACKETS_FEDERAL.headI.max.getD 0 ∧
    (calculateTotalFederalTax 50000 0 =
      max 0 (50000 * 0.15 - BASIC_PERSONAL_AMOUNT * 0.15)) :=
  ⟨by norm_num, by with_unfolding_all decide,
    (C6_federal_tax_first_bracket 50000 (by norm_num)
      (by with_unfolding_all decide)).1⟩

/-- C7: for positive combined taxable income, the regional tax is the
post-credit basic bracket tax `B` (floored at 0), plus a first surtax
`rate₁ × max 0 (B − threshold₁)`, plus an independently evaluated second
surtax `rate₂ × max 0 (B − threshold₂)` (both computed from the same
pre-surtax `B`, stacking additively), plus the stepped premium from five
increasing income bands capped at 900. -/
theorem C7_regional_tax_shape (o g fr : ℚ)
    (h : 0 < o + g * CAPITAL_GAINS_INCLUSION_RATE_BASE) :
    (calculateProvincialTax o g fr =
      regionalBasicTax o g
      + ONTARIO_SURTAX_1_RATE *
          max 0 (regionalBasicTax o g - ONTARIO_SURTAX_1_THRESHOLD)
      + ONTARIO_SURTAX_2_RATE *
          max 0 (regionalBasicTax o g - ONTARIO_SURTAX_2_THRESHOLD)
      + regionalSteppedPremium (o + g * CAPITAL_GAINS_INCLUSION_RATE_BASE)) ∧
    (∀ x y : ℚ, x ≤ y → regionalSteppedPremium x ≤ regionalSteppedPremium y) ∧
    (∀ x : ℚ, regionalSteppedPremium x ≤ 900) := by
  refine ⟨?_, ?_, ?_⟩
  · simp only [calculateProvincialTax, regionalBasicTax, regionalSteppedPremium]
    rw [if_neg (not_le.mpr h)]
    rw [surtax_as_max, surtax_as_max]
    ring
  · intro x y hxy
    unfold regionalSteppedPremium
    split_ifs <;> linarith
  · intro x
    unfold regionalSteppedPremium
    split_ifs <;> norm_num

/-- C7 witness: the regional-tax shape at ordinary income 100,000 and
capital gain 20,000. -/
theorem C7_regional_tax_shape_witness :
    (0 : ℚ) < 100000 + 20000 * CAPITAL_GAINS_INCLUSION_RATE_BASE ∧
    (calculateProvincialTax 100000 20000 0.10 =
      regionalBasicTax 100000 20000
      + ONTARIO_SURTAX_1_RATE *
          max 0 (regionalBasicTax 100000 20000 - ONTARIO_SURTAX_1_THRESHOLD)
      + ONTARIO_SURTAX_2_RATE *
          max 0 (regionalBasicTax 100000 20000 - ONTARIO_SURTAX_2_THRESHOLD)
      + regionalSteppedPremium
          (100000 + 20000 * CAPITAL_GAINS_INCLUSION_RATE_BASE)) :=
  ⟨by with_unfolding_all decide,
    (C7_regional_tax_shape 100000 20000 0.10 (by with_unfolding_all decide)).1⟩

/-- C10 counterexample: `calculateProvincialTax` ignores its flat-rate
parameter entirely, so no choice of incomes and distinct rates can give
two different tax amounts — the claimed witnesses do not exist. -/
theorem C10_counterexample_rate_has_no_effect :
    ¬ ∃ (o g r1 r2 : ℚ), r1 ≠ r2 ∧
        calculateProvincialTax o g r1 ≠ calculateProvincialTax o g r2 := by
  rintro ⟨o, g, r1, r2, -, hne⟩
  exact hne rfl

/-- C10 (amended): the regional flat-rate parameter is accepted only for
signature compatibility and is ignored, so each member's regional tax is
the same whatever rate parameter is supplied (supplying the spouse's
differing rate cannot change the spouse's tax). -/
theorem C10_amended_rate_ignored (o g r1 r2 : ℚ) :
    calculateProvincialTax o g r1 = calculateProvincialTax o g r2 := rfl

/-- Each year iteration appends exactly one record to the ledger. -/
theorem yearStep_records (p : Profile) (a : Assumptions) (cy : ℤ)
    (s : SimState) (i : ℕ) :
    ∃ yw, (yearStep p a cy s i).records = s.records ++ [yw] :=
  ⟨_, rfl⟩

/-- Folding the year step over an index list appends one record per
index. -/
theorem foldl_records_length (p : Profile) (a : Assumptions) (cy : ℤ)
    (l : List ℕ) (s : SimState) :
    ((l.foldl (yearStep p a cy) s).records).length = s.records.length + l.length := by
  induction l generalizing s with
  | nil => simp
  | cons x xs ih =>
    rw [List.foldl_cons, ih]
    obtain ⟨yw, hyw⟩ := yearStep_records p a cy s x
    rw [hyw, List.length_append]
    simp
    omega

/-- The ledger length is `(lifeExpectancy − retirementAge + 1).toNat`:
the inclusive year loop runs once per age of the closed interval. -/
theorem calculateWithdrawals_num_years (accounts : List Account)
    (profile : Profile) (asm : Assumptions) (ar : AccumulationResult) (cy : ℤ) :
    ((calculateWithdrawals accounts profile asm ar cy).yearlyWithdrawals).length =
      (profile.lifeExpectancy - profile.retirementAge + 1).toNat := by
  show ((List.range _).foldl (yearStep profile asm cy)
      (initSimState accounts asm ar)).records.length = _
  rw [foldl_records_length]
  simp [initSimState]

/-- C8 counterexample: with life expectancy equal to the retirement age
(a zero-year horizon, so within the claim's hypothesis
`lifeExpectancy ≤ retirementAge`), the simulator produces one yearly
record, not the empty sequence the claim requires. -/
theorem C8_counterexample_equal_horizon :
    degenerateProfileEq.lifeExpectancy ≤ degenerateProfileEq.retirementAge ∧
    (calculateWithdrawals scenarioA_accounts degenerateProfileEq
        scenarioA_assumptions scenarioA_accum 2025).yearlyWithdrawals ≠ [] ∧
    (calculateWithdrawals scenarioA_accounts degenerateProfileEq
        scenarioA_assumptions scenarioA_accum 2025).yearlyWithdrawals.length = 1 := by
  with_unfolding_all decide

/-- C8 (amended): the simulator never faults on a degenerate horizon; a
strictly negative horizon (lifeExpectancy < retirementAge) yields an
empty yearly sequence, while a zero-year horizon
(lifeExpectancy = retirementAge) yields exactly one record, because the
year loop runs over the closed age interval. -/
theorem C8_amended_degenerate_horizon (accounts : List Account)
    (profile : Profile) (asm : Assumptions) (ar : AccumulationResult) (cy : ℤ) :
    (profile.lifeExpectancy < profile.retirementAge →
      (calculateWithdrawals accounts profile asm ar cy).yearlyWithdrawals = []) ∧
    (profile.lifeExpectancy = profile.retirementAge →
      (calculateWithdrawals accounts profile asm ar cy).yearlyWithdrawals.length = 1) := by
  constructor
  · intro h
    have hlen := calculateWithdrawals_num_years accounts profile asm ar cy
    have hz : (profile.lifeExpectancy - profile.retirementAge + 1).toNat = 0 := by
      omega
    rw [hz] at hlen
    exact List.length_eq_zero.mp hlen
  · intro h
    rw [calculateWithdrawals_num_years, h]
    omega

/-- C8 witness: a negative horizon gives an empty ledger; an equal-age
horizon gives a one-record ledger. -/
theorem C8_amended_degenerate_horizon_witness :
    (calculateWithdrawals scenarioA_accounts degenerateProfileLt
        scenarioA_assumptions scenarioA_accum 2025).yearlyWithdrawals = [] ∧
    (calculateWithdrawals scenarioA_accounts degenerateProfileEq
        scenarioA_assumptions scenarioA_accum 2025).yearlyWithdrawals.length = 1 :=
  ⟨(C8_amended_degenerate_horizon scenarioA_accounts degenerateProfileLt
      scenarioA_assumptions scenarioA_accum 2025).1 (by norm_num [degenerateProfileLt]),
   (C8_amended_degenerate_horizon scenarioA_accounts degenerateProfileEq
      scenarioA_assumptions scenarioA_accum 2025).2 (by norm_num [degenerateProfileEq])⟩

/-- Ages strictly beyond the RRIF table are not found in it. -/
theorem rrifTable_find_none (a : ℤ) (h : 95 < a) :
    RRIF_TABLE.find? (fun e => e.age == a) = none := by
  rw [List.find?_eq_none]
  intro e he
  fin_cases he <;> simp <;> omega

/-- Below the start age the RRIF factor is zero. -/
theorem getRRIFFactor_below (a : ℤ) (h : a < 72) : getRRIFFactor a = 0 := by
  have h' : a < RRIF_START_AGE := by unfold RRIF_START_AGE; omega
  simp only [getRRIFFactor, if_pos h']

/-- At and beyond age 95 the RRIF factor is the table cap 0.20. -/
theorem getRRIFFactor_ge95 (a : ℤ) (h : 95 ≤ a) : getRRIFFactor a = 0.20 := by
  rcases eq_or_lt_of_le h with h' | h'
  · rw [← h']
    with_unfolding_all rfl
  · have hne : ¬ a < RRIF_START_AGE := by unfold RRIF_START_AGE; omega
    simp only [getRRIFFactor, rrifTable_find_none a h', if_neg hne]
    rw [if_pos h]

/-- The RRIF factor increases from each table age to the next. -/
theorem getRRIFFactor_step (a : ℤ) (h : 72 ≤ a) :
    getRRIFFactor a ≤ getRRIFFactor (a + 1) := by
  rcases lt_or_le a 95 with h' | h'
  · interval_cases a <;> with_unfolding_all decide
  · rw [getRRIFFactor_ge95 a h', getRRIFFactor_ge95 (a + 1) (by omega)]

/-- The RRIF factor is non-decreasing on ages at or above the start
age. -/
theorem getRRIFFactor_mono (a1 a2 : ℤ) (h72 : 72 ≤ a1) (h : a1 ≤ a2) :
    getRRIFFactor a1 ≤ getRRIFFactor a2 := by
  exact Int.le_induction (P := fun x => getRRIFFactor a1 ≤ getRRIFFactor x)
    (le_refl _)
    (fun n hn ih => le_trans ih (getRRIFFactor_step n (le_trans h72 hn)))
    a2 h

/-- C5: for a fixed nonnegative balance, the mandatory minimum is exactly
0 below the start age (including the warm-up table ages 70–71), is
non-decreasing in age at or above the start age, and beyond the table's
last explicit entry equals balance × the table's final (maximum)
factor. -/
theorem C5_mandatory_minimum (b : ℚ) (hb : 0 ≤ b) :
    (∀ age : ℤ, age < RRIF_START_AGE → calculateRRIFMinimum age b = 0) ∧
    (∀ a1 a2 : ℤ, RRIF_START_AGE ≤ a1 → a1 ≤ a2 →
      calculateRRIFMinimum a1 b ≤ calculateRRIFMinimum a2 b) ∧
    (∀ age : ℤ, 95 < age →
      calculateRRIFMinimum age b = b * (RRIF_TABLE.getLastD ⟨0, 0⟩).factor) := by
  refine ⟨?_, ?_, ?_⟩
  · intro age h
    unfold calculateRRIFMinimum
    rw [if_pos h]
  · intro a1 a2 h1 h2
    unfold calculateRRIFMinimum
    rw [if_neg (not_lt.mpr h1), if_neg (not_lt.mpr (le_trans h1 h2))]
    have h72 : (72:ℤ) ≤ a1 := by unfold RRIF_START_AGE at h1; omega
    exact mul_le_mul_of_nonneg_left (getRRIFFactor_mono a1 a2 h72 h2) hb
  · intro age h
    unfold calculateRRIFMinimum
    rw [if_neg (show ¬ age < RRIF_START_AGE by unfold RRIF_START_AGE; omega)]
    rw [getRRIFFactor_ge95 age (by omega)]
    rw [show (RRIF_TABLE.getLastD ⟨0, 0⟩).factor = 0.20 from by
      with_unfolding_all rfl]

/-- C5 witness: the three properties instantiated at balance 1000. -/
theorem C5_mandatory_minimum_witness :
    (0 : ℚ) ≤ 1000 ∧
    ((∀ age : ℤ, age < RRIF_START_AGE → calculateRRIFMinimum age 1000 = 0) ∧
     (∀ a1 a2 : ℤ, RRIF_START_AGE ≤ a1 → a1 ≤ a2 →
        calculateRRIFMinimum a1 1000 ≤ calculateRRIFMinimum a2 1000) ∧
     (∀ age : ℤ, 95 < age →
        calculateRRIFMinimum age 1000 = 1000 * (RRIF_TABLE.getLastD ⟨0, 0⟩).factor)) :=
  ⟨by norm_num, C5_mandatory_minimum 1000 (by norm_num)⟩

/-! ## Per-pass invariants of the withdrawal loops -/

theorem stepRel_refl (p : AccCell × ℚ) : StepRel p p :=
  ⟨rfl, rfl, rfl, rfl, fun hb => ⟨hb, le_refl _⟩, fun _ ha => ha⟩

theorem stepRel_trans {p q r : AccCell × ℚ} (h1 : StepRel p q)
    (h2 : StepRel q r) : StepRel p r := by
  obtain ⟨i1, t1, o1, b1, n1, d1⟩ := h1
  obtain ⟨i2, t2, o2, b2, n2, d2⟩ := h2
  refine ⟨i2.trans i1, t2.trans t1, o2.trans o1, by linarith, ?_,
    fun a ha => d2 a (d1 a ha)⟩
  intro hb
  obtain ⟨hq0, hq1⟩ := n1 hb
  obtain ⟨hr0, hr1⟩ := n2 hq0
  exact ⟨hr0, hr1.trans hq1⟩

theorem forall₂_stepRel_trans {l1 l2 l3 : List (AccCell × ℚ)}
    (h1 : List.Forall₂ StepRel l1 l2) (h2 : List.Forall₂ StepRel l2 l3) :
    List.Forall₂ StepRel l1 l3 := by
  induction h1 generalizing l3 with
  | nil =>
    cases h2
    exact List.Forall₂.nil
  | cons hpq _ ih =>
    cases h2 with
    | cons hqr h' => exact List.Forall₂.cons (stepRel_trans hpq hqr) (ih h')

/-- The single-account update every withdrawal site performs: the balance
decreases by the withdrawal, the byAccount entry grows by it, and the
depletion age is only ever set, never overwritten. -/
theorem stepRel_withdraw (c : AccCell) (w q cb' : ℚ) (age : ℤ)
    (hq : q ≤ c.balance) (hq0 : 0 ≤ c.balance → 0 ≤ q) :
    StepRel (c, w)
      (⟨c.id, c.type, c.owner, c.balance - q, cb',
        depUpdate c.depAge (c.balance - q) age⟩, w + q) := by
  unfold StepRel
  try dsimp only
  refine ⟨rfl, rfl, rfl, by ring, ?_, ?_⟩
  · intro hb
    exact ⟨by linarith, by linarith [hq0 hb]⟩
  · intro a ha
    rw [ha]
    simp [depUpdate]

theorem rrifLoop_rel (age : ℤ) (rr rn : ℚ) (l : List (AccCell × ℚ)) :
    List.Forall₂ StepRel l (rrifLoop age rr rn l).1 := by
  induction l generalizing rr rn with
  | nil => exact List.Forall₂.nil
  | cons hd tl ih =>
    rcases hd with ⟨c, w⟩
    simp only [rrifLoop]
    split
    case isTrue h =>
      rcases hrec : rrifLoop age (rr - min rr c.balance)
          (max 0 (rn - min rr c.balance)) tl with ⟨rest', rr', rn', s⟩
      refine List.Forall₂.cons
        (stepRel_withdraw c w (min rr c.balance) c.costBasis age
          (min_le_right _ _) (fun hb => le_min (le_of_lt h.2) hb)) ?_
      have htl := ih (rr - min rr c.balance) (max 0 (rn - min rr c.balance))
      rw [hrec] at htl
      exact htl
    case isFalse h =>
      rcases hrec : rrifLoop age rr rn tl with ⟨rest', rr', rn', s⟩
      refine List.Forall₂.cons (stepRel_refl _) ?_
      have htl := ih rr rn
      rw [hrec] at htl
      exact htl

theorem bracketFillLoop_rel (age : ℤ) (cap oi : ℚ) (rwd rn : ℚ)
    (l : List (AccCell × ℚ)) :
    List.Forall₂ StepRel l (bracketFillLoop age cap oi rwd rn l).1 := by
  induction l generalizing rwd rn with
  | nil => exact List.Forall₂.nil
  | cons hd tl ih =>
    rcases hd with ⟨c, w⟩
    simp only [bracketFillLoop]
    split
    case isTrue h =>
      split
      case isTrue h2 =>
        rcases hrec : bracketFillLoop age cap oi
            (rwd + min (max 0 (cap - (rwd + oi))) (min rn c.balance))
            (rn - min (max 0 (cap - (rwd + oi))) (min rn c.balance)) tl with
          ⟨rest', rw', rn'⟩
        refine List.Forall₂.cons
          (stepRel_withdraw c w _ c.costBasis age
            (le_trans (min_le_right _ _) (min_le_right _ _))
            (fun _ => le_of_lt h2)) ?_
        have htl := ih (rwd + min (max 0 (cap - (rwd + oi))) (min rn c.balance))
          (rn - min (max 0 (cap - (rwd + oi))) (min rn c.balance))
        rw [hrec] at htl
        exact htl
      case isFalse h2 =>
        rcases hrec : bracketFillLoop age cap oi rwd rn tl with ⟨rest', rw', rn'⟩
        refine List.Forall₂.cons (stepRel_refl _) ?_
        have htl := ih rwd rn
        rw [hrec] at htl
        exact htl
    case isFalse h =>
      rcases hrec : bracketFillLoop age cap oi rwd rn tl with ⟨rest', rw', rn'⟩
      refine List.Forall₂.cons (stepRel_refl _) ?_
      have htl := ih rwd rn
      rw [hrec] at htl
      exact htl

theorem taxFreeLoop_rel (age : ℤ) (rn : ℚ) (l : List (AccCell × ℚ)) :
    List.Forall₂ StepRel l (taxFreeLoop age rn l).1 := by
  induction l generalizing rn with
  | nil => exact List.Forall₂.nil
  | cons hd tl ih =>
    rcases hd with ⟨c, w⟩
    simp only [taxFreeLoop]
    split
    case isTrue h =>
      rcases hrec : taxFreeLoop age (rn - min rn c.balance) tl with ⟨rest', rn', s⟩
      refine List.Forall₂.cons
        (stepRel_withdraw c w (min rn c.balance) c.costBasis age
          (min_le_right _ _) (fun hb => le_min (le_of_lt h.2) hb)) ?_
      have htl := ih (rn - min rn c.balance)
      rw [hrec] at htl
      exact htl
    case isFalse h =>
      rcases hrec : taxFreeLoop age rn tl with ⟨rest', rn', s⟩
      refine List.Forall₂.cons (stepRel_refl _) ?_
      have htl := ih rn
      rw [hrec] at htl
      exact htl

theorem taxableLoop_rel (age : ℤ) (rn : ℚ) (l : List (AccCell × ℚ)) :
    List.Forall₂ StepRel l (taxableLoop age rn l).1 := by
  induction l generalizing rn with
  | nil => exact List.Forall₂.nil
  | cons hd tl ih =>
    rcases hd with ⟨c, w⟩
    simp only [taxableLoop]
    split
    case isTrue h =>
      rcases hrec : taxableLoop age (rn - min rn c.balance) tl with ⟨rest', rn', s, g⟩
      refine List.Forall₂.cons
        (stepRel_withdraw c w (min rn c.balance) _ age
          (min_le_right _ _) (fun hb => le_min (le_of_lt h.2) hb)) ?_
      have htl := ih (rn - min rn c.balance)
      rw [hrec] at htl
      exact htl
    case isFalse h =>
      rcases hrec : taxableLoop age rn tl with ⟨rest', rn', s, g⟩
      refine List.Forall₂.cons (stepRel_refl _) ?_
      have htl := ih rn
      rw [hrec] at htl
      exact htl

theorem rrspDrainLoop_rel (age : ℤ) (rn : ℚ) (l : List (AccCell × ℚ)) :
    List.Forall₂ StepRel l (rrspDrainLoop age rn l).1 := by
  induction l generalizing rn with
  | nil => exact List.Forall₂.nil
  | cons hd tl ih =>
    rcases hd with ⟨c, w⟩
    simp only [rrspDrainLoop]
    split
    case isTrue h =>
      rcases hrec : rrspDrainLoop age (rn - min rn c.balance) tl with ⟨rest', rn', s⟩
      refine List.Forall₂.cons
        (stepRel_withdraw c w (min rn c.balance) c.costBasis age
          (min_le_right _ _) (fun hb => le_min (le_of_lt h.2) hb)) ?_
      have htl := ih (rn - min rn c.balance)
      rw [hrec] at htl
      exact htl
    case isFalse h =>
      rcases hrec : rrspDrainLoop age rn tl with ⟨rest', rn', s⟩
      refine List.Forall₂.cons (stepRel_refl _) ?_
      have htl := ih rn
      rw [hrec] at htl
      exact htl

/-! ## By-account sums of the withdrawal loops (conservation) -/

theorem rrifLoop_wsum (age : ℤ) (rr rn : ℚ) (l : List (AccCell × ℚ)) :
    (((rrifLoop age rr rn l).1).map Prod.snd).sum =
      (l.map Prod.snd).sum + (rrifLoop age rr rn l).2.2.2 := by
  induction l generalizing rr rn with
  | nil => simp [rrifLoop]
  | cons hd tl ih =>
    rcases hd with ⟨c, w⟩
    simp only [rrifLoop]
    split
    case isTrue h =>
      rcases hrec : rrifLoop age (rr - min rr c.balance)
          (max 0 (rn - min rr c.balance)) tl with ⟨rest', rr', rn', s⟩
      have htl := ih (rr - min rr c.balance) (max 0 (rn - min rr c.balance))
      rw [hrec] at htl
      dsimp only at htl ⊢
      simp only [List.map_cons, List.sum_cons] at htl ⊢
      linarith
    case isFalse h =>
      rcases hrec : rrifLoop age rr rn tl with ⟨rest', rr', rn', s⟩
      have htl := ih rr rn
      rw [hrec] at htl
      dsimp only at htl ⊢
      simp only [List.map_cons, List.sum_cons] at htl ⊢
      linarith

theorem bracketFillLoop_wsum (age : ℤ) (cap oi rwd rn : ℚ)
    (l : List (AccCell × ℚ)) :
    (((bracketFillLoop age cap oi rwd rn l).1).map Prod.snd).sum + rwd =
      (l.map Prod.snd).sum + (bracketFillLoop age cap oi rwd rn l).2.1 := by
  induction l generalizing rwd rn with
  | nil => simp [bracketFillLoop]
  | cons hd tl ih =>
    rcases hd with ⟨c, w⟩
    simp only [bracketFillLoop]
    split
    case isTrue h =>
      split
      case isTrue h2 =>
        rcases hrec : bracketFillLoop age cap oi
            (rwd + min (max 0 (cap - (rwd + oi))) (min rn c.balance))
            (rn - min (max 0 (cap - (rwd + oi))) (min rn c.balance)) tl with
          ⟨rest', rw', rn'⟩
        have htl := ih (rwd + min (max 0 (cap - (rwd + oi))) (min rn c.balance))
          (rn - min (max 0 (cap - (rwd + oi))) (min rn c.balance))
        rw [hrec] at htl
        dsimp only at htl ⊢
        simp only [List.map_cons, List.sum_cons] at htl ⊢
        linarith
      case isFalse h2 =>
        rcases hrec : bracketFillLoop age cap oi rwd rn tl with ⟨rest', rw', rn'⟩
        have htl := ih rwd rn
        rw [hrec] at htl
        dsimp only at htl ⊢
        simp only [List.map_cons, List.sum_cons] at htl ⊢
        linarith
    case isFalse h =>
      rcases hrec : bracketFillLoop age cap oi rwd rn tl with ⟨rest', rw', rn'⟩
      have htl := ih rwd rn
      rw [hrec] at htl
      dsimp only at htl ⊢
      simp only [List.map_cons, List.sum_cons] at htl ⊢
      linarith

theorem taxFreeLoop_wsum (age : ℤ) (rn : ℚ) (l : List (AccCell × ℚ)) :
    (((taxFreeLoop age rn l).1).map Prod.snd).sum =
      (l.map Prod.snd).sum + (taxFreeLoop age rn l).2.2 := by
  induction l generalizing rn with
  | nil => simp [taxFreeLoop]
  | cons hd tl ih =>
    rcases hd with ⟨c, w⟩
    simp only [taxFreeLoop]
    split
    case isTrue h =>
      rcases hrec : taxFreeLoop age (rn - min rn c.balance) tl with ⟨rest', rn', s⟩
      have htl := ih (rn - min rn c.balance)
      rw [hrec] at htl
      dsimp only at htl ⊢
      simp only [List.map_cons, List.sum_cons] at htl ⊢
      linarith
    case isFalse h =>
      rcases hrec : taxFreeLoop age rn tl with ⟨rest', rn', s⟩
      have htl := ih rn
      rw [hrec] at htl
      dsimp only at htl ⊢
      simp only [List.map_cons, List.sum_cons] at htl ⊢
      linarith

theorem taxableLoop_wsum (age : ℤ) (rn : ℚ) (l : List (AccCell × ℚ)) :
    (((taxableLoop age rn l).1).map Prod.snd).sum =
      (l.map Prod.snd).sum + (taxableLoop age rn l).2.2.1 := by
  induction l generalizing rn with
  | nil => simp [taxableLoop]
  | cons hd tl ih =>
    rcases hd with ⟨c, w⟩
    simp only [taxableLoop]
    split
    case isTrue h =>
      rcases hrec : taxableLoop age (rn - min rn c.balance) tl with ⟨rest', rn', s, g⟩
      have htl := ih (rn - min rn c.balance)
      rw [hrec] at htl
      dsimp only at htl ⊢
      simp only [List.map_cons, List.sum_cons] at htl ⊢
      linarith
    case isFalse h =>
      rcases hrec : taxableLoop age rn tl with ⟨rest', rn', s, g⟩
      have htl := ih rn
      rw [hrec] at htl
      dsimp only at htl ⊢
      simp only [List.map_cons, List.sum_cons] at htl ⊢
      linarith

theorem rrspDrainLoop_wsum (age : ℤ) (rn : ℚ) (l : List (AccCell × ℚ)) :
    (((rrspDrainLoop age rn l).1).map Prod.snd).sum =
      (l.map Prod.snd).sum + (rrspDrainLoop age rn l).2.2 := by
  induction l generalizing rn with
  | nil => simp [rrspDrainLoop]
  | cons hd tl ih =>
    rcases hd with ⟨c, w⟩
    simp only [rrspDrainLoop]
    split
    case isTrue h =>
      rcases hrec : rrspDrainLoop age (rn - min rn c.balance) tl with ⟨rest', rn', s⟩
      have htl := ih (rn - min rn c.balance)
      rw [hrec] at htl
      dsimp only at htl ⊢
      simp only [List.map_cons, List.sum_cons] at htl ⊢
      linarith
    case isFalse h =>
      rcases hrec : rrspDrainLoop age rn tl with ⟨rest', rn', s⟩
      have htl := ih rn
      rw [hrec] at htl
      dsimp only at htl ⊢
      simp only [List.map_cons, List.sum_cons] at htl ⊢
      linarith

theorem map_pair_zero_snd_sum (l : List AccCell) :
    ((l.map (fun c => (c, (0:ℚ)))).map Prod.snd).sum = 0 := by
  induction l with
  | nil => rfl
  | cons hd tl ih => simpa using ih

/-! ## performTaxOptimizedWithdrawal-level lemmas -/

theorem perform_rel (cells : List AccCell) (ts rm oi : ℚ) (hs : Bool) (age : ℤ) :
    List.Forall₂ StepRel (cells.map (fun c => (c, 0)))
      (performTaxOptimizedWithdrawal cells ts rm oi hs age).1 := by
  unfold performTaxOptimizedWithdrawal
  rcases h1 : rrifLoop age rm (max 0 (ts - oi)) (cells.map fun c => (c, (0:ℚ))) with
    ⟨p1, rr1, n1, s1⟩
  try dsimp only
  rcases h2 : bracketFillLoop age (TAX_BRACKETS_FEDERAL.headI.max.getD 0 *
      (if hs then 2 else 1)) oi s1 n1 p1 with ⟨p2, rw2, n2⟩
  rcases h3 : taxFreeLoop age n2 p2 with ⟨p3, n3, s3⟩
  try dsimp only
  rcases h4 : taxableLoop age n3 p3 with ⟨p4, n4, s4, g4⟩
  try dsimp only
  rcases h5 : rrspDrainLoop age n4 p4 with ⟨p5, n5, s5⟩
  rw [h1]
  try dsimp only
  rw [h2]
  try dsimp only
  rw [h3]
  try dsimp only
  rw [h4]
  try dsimp only
  rw [h5]
  try dsimp only
  have r1 := rrifLoop_rel age rm (max 0 (ts - oi)) (cells.map fun c => (c, (0:ℚ)))
  rw [h1] at r1
  have r2 := bracketFillLoop_rel age (TAX_BRACKETS_FEDERAL.headI.max.getD 0 *
    (if hs then 2 else 1)) oi s1 n1 p1
  rw [h2] at r2
  have r3 := taxFreeLoop_rel age n2 p2
  rw [h3] at r3
  have r4 := taxableLoop_rel age n3 p3
  rw [h4] at r4
  have r5 := rrspDrainLoop_rel age n4 p4
  rw [h5] at r5
  exact forall₂_stepRel_trans r1 (forall₂_stepRel_trans r2
    (forall₂_stepRel_trans r3 (forall₂_stepRel_trans r4 r5)))

theorem perform_wsum (cells : List AccCell) (ts rm oi : ℚ) (hs : Bool) (age : ℤ) :
    (((performTaxOptimizedWithdrawal cells ts rm oi hs age).1).map Prod.snd).sum =
      (performTaxOptimizedWithdrawal cells ts rm oi hs age).2.total := by
  unfold performTaxOptimizedWithdrawal
  rcases h1 : rrifLoop age rm (max 0 (ts - oi)) (cells.map fun c => (c, (0:ℚ))) with
    ⟨p1, rr1, n1, s1⟩
  try dsimp only
  rcases h2 : bracketFillLoop age (TAX_BRACKETS_FEDERAL.headI.max.getD 0 *
      (if hs then 2 else 1)) oi s1 n1 p1 with ⟨p2, rw2, n2⟩
  rcases h3 : taxFreeLoop age n2 p2 with ⟨p3, n3, s3⟩
  try dsimp only
  rcases h4 : taxableLoop age n3 p3 with ⟨p4, n4, s4, g4⟩
  try dsimp only
  rcases h5 : rrspDrainLoop age n4 p4 with ⟨p5, n5, s5⟩
  rw [h1]
  try dsimp only
  rw [h2]
  try dsimp only
  rw [h3]
  try dsimp only
  rw [h4]
  try dsimp only
  rw [h5]
  try dsimp only
  have w1 := rrifLoop_wsum age rm (max 0 (ts - oi)) (cells.map fun c => (c, (0:ℚ)))
  rw [h1] at w1
  have w2 := bracketFillLoop_wsum age (TAX_BRACKETS_FEDERAL.headI.max.getD 0 *
    (if hs then 2 else 1)) oi s1 n1 p1
  rw [h2] at w2
  have w3 := taxFreeLoop_wsum age n2 p2
  rw [h3] at w3
  have w4 := taxableLoop_wsum age n3 p3
  rw [h4] at w4
  have w5 := rrspDrainLoop_wsum age n4 p4
  rw [h5] at w5
  have hz := map_pair_zero_snd_sum cells
  dsimp only at w1 w2 w3 w4 w5
  linarith

/-! ## yearStep-level lemmas -/

/-- Structural content of one year iteration: the new cells are the
post-withdrawal pairs with returns applied, and the appended record's
withdrawal/balance fields are built from the same pairs. -/
theorem yearStep_shape (p : Profile) (a : Assumptions) (cy : ℤ)
    (s : SimState) (i : ℕ) :
    ∃ (ts rm oi : ℚ) (hs : Bool) (age : ℤ) (yw : YearlyWithdrawal),
      (yearStep p a cy s i).cells =
        ((performTaxOptimizedWithdrawal s.cells ts rm oi hs age).1).map
          (fun pr => { pr.1 with
            balance := pr.1.balance * (1 + a.retirementReturnRate) }) ∧
      (yearStep p a cy s i).records = s.records ++ [yw] ∧
      yw.withdrawals =
        ((performTaxOptimizedWithdrawal s.cells ts rm oi hs age).1).map Prod.snd ∧
      yw.remainingBalances = ((yearStep p a cy s i).cells).map AccCell.balance ∧
      yw.totalWithdrawal =
        (performTaxOptimizedWithdrawal s.cells ts rm oi hs age).2.total ∧
      yw.totalWithdrawal + yw.cppOasIncome = yw.grossIncome ∧
      yw.withdrawals.sum = yw.totalWithdrawal := by
  refine ⟨_, _, _, _, _, _, rfl, rfl, rfl, rfl, rfl, rfl, ?_⟩
  exact perform_wsum _ _ _ _ _ _

/-- The portfolio depletion check of one year iteration. -/
theorem yearStep_pda (p : Profile) (a : Assumptions) (cy : ℤ)
    (s : SimState) (i : ℕ) :
    (yearStep p a cy s i).portfolioDepletionAge =
      if (s.cells.map AccCell.balance).sum ≤ 0 ∧ s.portfolioDepletionAge = none
      then some (p.retirementAge + (i : ℤ)) else s.portfolioDepletionAge := rfl

theorem yearStep_pda_preserve (p : Profile) (a : Assumptions) (cy : ℤ)
    (s : SimState) (i : ℕ) (x : ℤ)
    (h : s.portfolioDepletionAge = some x) :
    (yearStep p a cy s i).portfolioDepletionAge = some x := by
  rw [yearStep_pda, h]
  simp

theorem yearStep_dep_preserve (p : Profile) (a : Assumptions) (cy : ℤ)
    (s : SimState) (i : ℕ) (j : ℕ) (x : ℤ)
    (h : (s.cells.getD j cellDefault).depAge = some x) :
    ((yearStep p a cy s i).cells.getD j cellDefault).depAge = some x := by
  obtain ⟨ts, rm, oi, hs, age, yw, hcells, -, -, -, -, -, -⟩ :=
    yearStep_shape p a cy s i
  have hrel := perform_rel s.cells ts rm oi hs age
  rw [List.forall₂_map_left_iff] at hrel
  have hlen := hrel.length_eq
  rcases lt_or_le j s.cells.length with hj | hj
  · have hj2 : j < (performTaxOptimizedWithdrawal s.cells ts rm oi hs age).1.length := by
      omega
    have hget := hrel.get hj hj2
    rw [List.getD_eq_get s.cells cellDefault hj] at h
    have hdep := hget.2.2.2.2.2 x h
    rw [hcells]
    have hj3 : j < (((performTaxOptimizedWithdrawal s.cells ts rm oi hs age).1).map
        (fun pr => { pr.1 with
          balance := pr.1.balance * (1 + a.retirementReturnRate) })).length := by
      rw [List.length_map]
      exact hj2
    rw [List.getD_eq_get _ cellDefault hj3, List.get_map]
    exact hdep
  · rw [List.getD_eq_default _ _ hj] at h
    exact absurd h (by simp [cellDefault])

theorem foldl_dep_preserve (p : Profile) (a : Assumptions) (cy : ℤ)
    (l : List ℕ) (s : SimState) :
    (∀ x : ℤ, s.portfolioDepletionAge = some x →
      (l.foldl (yearStep p a cy) s).portfolioDepletionAge = some x) ∧
    (∀ (j : ℕ) (x : ℤ), (s.cells.getD j cellDefault).depAge = some x →
      ((l.foldl (yearStep p a cy) s).cells.getD j cellDefault).depAge = some x) := by
  induction l generalizing s with
  | nil => exact ⟨fun _ h => h, fun _ _ h => h⟩
  | cons hd tl ih =>
    constructor
    · intro x h
      exact (ih (yearStep p a cy s hd)).1 x (yearStep_pda_preserve p a cy s hd x h)
    · intro j x h
      exact (ih (yearStep p a cy s hd)).2 j x
        (yearStep_dep_preserve p a cy s hd j x h)

/-- Running `k + m` years equals running `m` more years from the state
after `k` years. -/
theorem simStateAfter_add (accounts : List Account) (p : Profile)
    (a : Assumptions) (ar : AccumulationResult) (cy : ℤ) (k m : ℕ) :
    simStateAfter accounts p a ar cy (k + m) =
      ((List.range m).map (k + ·)).foldl (yearStep p a cy)
        (simStateAfter accounts p a ar cy k) := by
  unfold simStateAfter
  rw [List.range_add, List.foldl_append]

/-- C9: depletion bookkeeping is monotone — once the portfolio depletion
age or an account's depletion age is `some x` after `k` simulated years,
it is still `some x` after any `j ≥ k` years; and when the total initial
portfolio is zero (and at least one year is simulated, i.e.
retirementAge ≤ lifeExpectancy), the resulting portfolio depletion age is
the retirement age. -/
theorem C9_depletion_ages (accounts : List Account) (profile : Profile)
    (asm : Assumptions) (ar : AccumulationResult) (cy : ℤ) :
    (∀ k j : ℕ, k ≤ j →
      (∀ x : ℤ,
        (simStateAfter accounts profile asm ar cy k).portfolioDepletionAge = some x →
        (simStateAfter accounts profile asm ar cy j).portfolioDepletionAge = some x) ∧
      (∀ (i : ℕ) (x : ℤ),
        ((simStateAfter accounts profile asm ar cy k).cells.getD i
          cellDefault).depAge = some x →
        ((simStateAfter accounts profile asm ar cy j).cells.getD i
          cellDefault).depAge = some x)) ∧
    ((accounts.map (fun acc => ar.finalBalances acc.id)).sum = 0 →
      profile.retirementAge ≤ profile.lifeExpectancy →
      (calculateWithdrawals accounts profile asm ar cy).portfolioDepletionAge =
        some profile.retirementAge) := by
  constructor
  · intro k j hkj
    obtain ⟨m, rfl⟩ : ∃ m, j = k + m := ⟨j - k, by omega⟩
    rw [simStateAfter_add]
    exact foldl_dep_preserve profile asm cy _ _
  · intro hsum hra
    have hres : (calculateWithdrawals accounts profile asm ar cy).portfolioDepletionAge =
        (simStateAfter accounts profile asm ar cy
          ((profile.lifeExpectancy - profile.retirementAge + 1).toNat)).portfolioDepletionAge :=
      rfl
    rw [hres]
    have hn : (profile.lifeExpectancy - profile.retirementAge + 1).toNat =
        1 + ((profile.lifeExpectancy - profile.retirementAge + 1).toNat - 1) := by
      omega
    rw [hn, simStateAfter_add]
    have hbase : (simStateAfter accounts profile asm ar cy 1).portfolioDepletionAge =
        some profile.retirementAge := by
      unfold simStateAfter
      rw [show List.range 1 = [0] from rfl, List.foldl_cons, List.foldl_nil]
      have hcond : (((initSimState accounts asm ar).cells.map AccCell.balance).sum ≤ 0) ∧
          (initSimState accounts asm ar).portfolioDepletionAge = none := by
        constructor
        · have hmap : ((initSimState accounts asm ar).cells.map AccCell.balance) =
              accounts.map (fun acc => ar.finalBalances acc.id) := by
            show ((accounts.map (initCell ar)).map AccCell.balance) = _
            rw [List.map_map]
            rfl
          rw [hmap]
          exact le_of_eq hsum
        · rfl
      rw [yearStep_pda, if_pos hcond]
      norm_num
    exact (foldl_dep_preserve profile asm cy _ _).1 profile.retirementAge hbase

/-- C9 witness: a TFSA that depletes in the first simulated year keeps its
recorded depletion age 65 at the later state; an empty portfolio gets the
retirement age as portfolio depletion age. -/
theorem C9_depletion_ages_witness :
    ((simStateAfter depleteScenario_accounts depleteScenario_profile
        depleteScenario_assumptions depleteScenario_accum 2025 2).cells.getD 0
          cellDefault).depAge = some 65 ∧
    (calculateWithdrawals [] depleteScenario_profile depleteScenario_assumptions
        emptyScenario_accum 2025).portfolioDepletionAge = some 65 :=
  ⟨((C9_depletion_ages depleteScenario_accounts depleteScenario_profile
      depleteScenario_assumptions depleteScenario_accum 2025).1 1 2
        (by norm_num)).2 0 65 (by with_unfolding_all decide),
   (C9_depletion_ages [] depleteScenario_profile depleteScenario_assumptions
      emptyScenario_accum 2025).2 (by with_unfolding_all rfl)
      (by with_unfolding_all decide)⟩

/-- C9 counterexample (for the unamended claim): with a zero total
initial portfolio but lifeExpectancy below retirementAge, the year loop
never runs, so the resulting portfolio depletion age stays `none` instead
of the retirement age. -/
theorem C9_counterexample_negative_horizon :
    ((([] : List Account).map
        (fun acc => emptyScenario_accum.finalBalances acc.id)).sum = 0) ∧
    (calculateWithdrawals [] degenerateProfileLt depleteScenario_assumptions
        emptyScenario_accum 2025).portfolioDepletionAge = none ∧
    (none : Option ℤ) ≠ some degenerateProfileLt.retirementAge := by
  with_unfolding_all decide

/-! ## Conservation of the yearly records (C4) -/

theorem yearStep_record_mem (p : Profile) (a : Assumptions) (cy : ℤ)
    (s : SimState) (i : ℕ) :
    ∀ yw ∈ (yearStep p a cy s i).records, yw ∈ s.records ∨
      (yw.withdrawals.sum = yw.totalWithdrawal ∧
       yw.totalWithdrawal + yw.cppOasIncome = yw.grossIncome) := by
  intro yw hyw
  obtain ⟨ts, rm, oi, hs, age, yw', -, hrec, -, -, -, hgross, hsum⟩ :=
    yearStep_shape p a cy s i
  rw [hrec] at hyw
  rcases List.mem_append.mp hyw with h | h
  · exact Or.inl h
  · right
    rcases List.mem_singleton.mp h with rfl
    exact ⟨hsum, hgross⟩

theorem foldl_records_conservation (p : Profile) (a : Assumptions) (cy : ℤ)
    (l : List ℕ) (s : SimState)
    (h0 : ∀ yw ∈ s.records,
      yw.withdrawals.sum = yw.totalWithdrawal ∧
      yw.totalWithdrawal + yw.cppOasIncome = yw.grossIncome) :
    ∀ yw ∈ (l.foldl (yearStep p a cy) s).records,
      yw.withdrawals.sum = yw.totalWithdrawal ∧
      yw.totalWithdrawal + yw.cppOasIncome = yw.grossIncome := by
  induction l generalizing s with
  | nil => exact h0
  | cons hd tl ih =>
    apply ih
    intro yw hyw
    rcases yearStep_record_mem p a cy s hd yw hyw with h | h
    · exact h0 yw h
    · exact h

/-- C4: for every input and every record of the yearly ledger, the sum of
the per-account withdrawal map equals the record's `totalWithdrawal`, and
`totalWithdrawal + cppOasIncome = grossIncome`. -/
theorem C4_withdrawal_total_conservation (accounts : List Account)
    (profile : Profile) (asm : Assumptions) (ar : AccumulationResult) (cy : ℤ) :
    ∀ yw ∈ (calculateWithdrawals accounts profile asm ar cy).yearlyWithdrawals,
      yw.withdrawals.sum = yw.totalWithdrawal ∧
      yw.totalWithdrawal + yw.cppOasIncome = yw.grossIncome := by
  intro yw hyw
  exact foldl_records_conservation profile asm cy
    (List.range ((profile.lifeExpectancy - profile.retirementAge + 1).toNat))
    (initSimState accounts asm ar)
    (by intro x hx; simp [initSimState] at hx) yw hyw

theorem headI_mem_of_ne_nil {α : Type} [Inhabited α] (l : List α) (h : l ≠ []) :
    l.headI ∈ l := by
  cases l with
  | nil => exact absurd rfl h
  | cons a t => exact List.mem_cons_self a t

/-- C4 witness: conservation checked on the first Scenario A record. -/
theorem C4_withdrawal_total_conservation_witness :
    scenarioA_result.yearlyWithdrawals.headI.withdrawals.sum =
      scenarioA_result.yearlyWithdrawals.headI.totalWithdrawal ∧
    scenarioA_result.yearlyWithdrawals.headI.totalWithdrawal +
      scenarioA_result.yearlyWithdrawals.headI.cppOasIncome =
      scenarioA_result.yearlyWithdrawals.headI.grossIncome :=
  C4_withdrawal_total_conservation scenarioA_accounts scenarioA_profile
    scenarioA_assumptions scenarioA_accum 2025
    scenarioA_result.yearlyWithdrawals.headI
    (headI_mem_of_ne_nil scenarioA_result.yearlyWithdrawals
      (by with_unfolding_all decide))

/-! ## Balance invariants of the year loop (C3) -/

theorem lastBalances_cons (sb : List ℚ) (r : YearlyWithdrawal)
    (rest : List YearlyWithdrawal) :
    lastBalances sb (r :: rest) = lastBalances r.remainingBalances rest := by
  cases rest with
  | nil => rfl
  | cons x xs =>
    unfold lastBalances
    rw [List.getLast?_cons_cons]
    rcases h : (x :: xs).getLast? with - | y
    · rw [List.getLast?_eq_none_iff] at h
      exact absurd h (by simp)
    · rfl

theorem lastBalances_concat (sb : List ℚ) (recs : List YearlyWithdrawal)
    (yw : YearlyWithdrawal) :
    lastBalances sb (recs ++ [yw]) = yw.remainingBalances := by
  unfold lastBalances
  rw [List.getLast?_concat]

theorem goodRecs_append (sb : List ℚ) (recs : List YearlyWithdrawal)
    (yw : YearlyWithdrawal) (h : GoodRecs sb recs)
    (h1 : ∀ i : ℕ, yw.withdrawals.getD i 0 ≤ (lastBalances sb recs).getD i 0)
    (h2 : ∀ b ∈ yw.remainingBalances, 0 ≤ b) :
    GoodRecs sb (recs ++ [yw]) := by
  induction recs generalizing sb with
  | nil => exact ⟨h1, h2, trivial⟩
  | cons r rest ih =>
    obtain ⟨ha, hb, hc⟩ := h
    refine ⟨ha, hb, ?_⟩
    apply ih r.remainingBalances hc
    rw [← lastBalances_cons sb r rest]
    exact h1

theorem forall₂_mem_right {α β : Type} {R : α → β → Prop} {P : β → Prop}
    {l1 : List α} {l2 : List β} (h : List.Forall₂ R l1 l2)
    (himp : ∀ x y, x ∈ l1 → R x y → P y) : ∀ y ∈ l2, P y := by
  induction h with
  | nil => intro y hy; cases hy
  | cons hR hF ih =>
    intro y hy
    rcases List.mem_cons.mp hy with rfl | hy'
    · exact himp _ _ (List.mem_cons_self _ _) hR
    · exact ih (fun x y hx hR' => himp x y (List.mem_cons_of_mem _ hx) hR') y hy'

theorem yearStep_simInv (p : Profile) (a : Assumptions) (cy : ℤ) (sb : List ℚ)
    (hr : -1 ≤ a.retirementReturnRate) (s : SimState) (i : ℕ)
    (h : SimInv sb s) : SimInv sb (yearStep p a cy s i) := by
  obtain ⟨hpos, hbal, hgood⟩ := h
  obtain ⟨ts, rm, oi, hs, age, yw, hcells, hrec, hwd, hrb, -, -, -⟩ :=
    yearStep_shape p a cy s i
  have hrel := perform_rel s.cells ts rm oi hs age
  rw [List.forall₂_map_left_iff] at hrel
  have hlen := hrel.length_eq
  have hscale : (0:ℚ) ≤ 1 + a.retirementReturnRate := by linarith
  have hpairs_pos : ∀ pr ∈ (performTaxOptimizedWithdrawal s.cells ts rm oi hs age).1,
      0 ≤ pr.1.balance :=
    forall₂_mem_right hrel (fun x y hx hRxy => (hRxy.2.2.2.2.1 (hpos x hx)).1)
  have hcellpos : ∀ c' ∈ (yearStep p a cy s i).cells, 0 ≤ c'.balance := by
    rw [hcells]
    intro c' hc'
    rcases List.mem_map.mp hc' with ⟨pr, hpr, rfl⟩
    show 0 ≤ pr.1.balance * (1 + a.retirementReturnRate)
    exact mul_nonneg (hpairs_pos pr hpr) hscale
  refine ⟨hcellpos, ?_, ?_⟩
  · rw [hrec, lastBalances_concat, hrb]
  · rw [hrec]
    apply goodRecs_append sb s.records yw hgood
    · rw [← hbal]
      intro j
      rw [hwd]
      rcases lt_or_le j s.cells.length with hj | hj
      · have hj2 : j < (performTaxOptimizedWithdrawal s.cells ts rm oi hs age).1.length := by
          omega
        rw [List.getD_eq_get _ _ (by rw [List.length_map]; exact hj2)]
        rw [List.getD_eq_get _ _ (by rw [List.length_map]; exact hj)]
        rw [List.get_map, List.get_map]
        have hget := hrel.get hj hj2
        have hcons : ((performTaxOptimizedWithdrawal s.cells ts rm oi hs age).1.get
              ⟨j, hj2⟩).1.balance +
            ((performTaxOptimizedWithdrawal s.cells ts rm oi hs age).1.get
              ⟨j, hj2⟩).2 =
            (s.cells.get ⟨j, hj⟩).balance + 0 := hget.2.2.2.1
        have hcb : 0 ≤ (s.cells.get ⟨j, hj⟩).balance :=
          hpos _ (List.get_mem s.cells j hj)
        have hbnd : 0 ≤ ((performTaxOptimizedWithdrawal s.cells ts rm oi hs age).1.get
              ⟨j, hj2⟩).1.balance ∧
            ((performTaxOptimizedWithdrawal s.cells ts rm oi hs age).1.get
              ⟨j, hj2⟩).1.balance ≤ (s.cells.get ⟨j, hj⟩).balance :=
          hget.2.2.2.2.1 hcb
        show ((performTaxOptimizedWithdrawal s.cells ts rm oi hs age).1.get
            ⟨j, hj2⟩).2 ≤ (s.cells.get ⟨j, hj⟩).balance
        linarith [hbnd.1]
      · rw [List.getD_eq_default, List.getD_eq_default]
        · rw [List.length_map]
          exact hj
        · rw [List.length_map]
          omega
    · rw [hrb]
      intro b hb
      rcases List.mem_map.mp hb with ⟨c', hc', rfl⟩
      exact hcellpos c' hc'

theorem foldl_simInv (p : Profile) (a : Assumptions) (cy : ℤ) (sb : List ℚ)
    (hr : -1 ≤ a.retirementReturnRate) (l : List ℕ) (s : SimState)
    (h : SimInv sb s) : SimInv sb (l.foldl (yearStep p a cy) s) := by
  induction l generalizing s with
  | nil => exact h
  | cons hd tl ih => exact ih _ (yearStep_simInv p a cy sb hr s hd h)

theorem initSimState_simInv (accounts : List Account) (asm : Assumptions)
    (ar : AccumulationResult)
    (hb : ∀ acc ∈ accounts, 0 ≤ ar.finalBalances acc.id) :
    SimInv (accounts.map (fun acc => ar.finalBalances acc.id))
      (initSimState accounts asm ar) := by
  refine ⟨?_, ?_, trivial⟩
  · intro c hc
    rcases List.mem_map.mp hc with ⟨acc, hacc, rfl⟩
    exact hb acc hacc
  · show (accounts.map (initCell ar)).map AccCell.balance = _
    rw [List.map_map]
    rfl

theorem goodRecs_spec (sb : List ℚ) (recs : List YearlyWithdrawal)
    (h : GoodRecs sb recs) :
    ∀ k : ℕ, k < recs.length →
      (∀ b ∈ (recs.getD k default).remainingBalances, 0 ≤ b) ∧
      (∀ i : ℕ, (recs.getD k default).withdrawals.getD i 0 ≤
        (match k with
         | 0 => sb
         | k' + 1 => (recs.getD k' default).remainingBalances).getD i 0) := by
  induction recs generalizing sb with
  | nil =>
    intro k hk
    cases hk
  | cons r rest ih =>
    obtain ⟨h1, h2, h3⟩ := h
    intro k hk
    cases k with
    | zero => exact ⟨h2, h1⟩
    | succ k' =>
      have hk' : k' < rest.length := by simpa using hk
      have hrec := ih r.remainingBalances h3 k' hk'
      cases k' with
      | zero => exact hrec
      | succ k'' => exact hrec

/-- C3: with nonnegative initial balances and a retirement return rate of
at least −1, every recorded balance is nonnegative after every simulated
year, and the total withdrawn from any single account in a year never
exceeds that account's balance at the start of the year (its recorded
balance at the end of the previous year, or its initial balance for the
first year). -/
theorem C3_balance_invariants (accounts : List Account) (profile : Profile)
    (asm : Assumptions) (ar : AccumulationResult) (cy : ℤ)
    (hb : ∀ acc ∈ accounts, 0 ≤ ar.finalBalances acc.id)
    (hr : -1 ≤ asm.retirementReturnRate) :
    ∀ k : ℕ,
      k < (calculateWithdrawals accounts profile asm ar cy).yearlyWithdrawals.length →
      (∀ b ∈ ((calculateWithdrawals accounts profile asm ar cy).yearlyWithdrawals.getD
          k default).remainingBalances, 0 ≤ b) ∧
      (∀ i : ℕ,
        ((calculateWithdrawals accounts profile asm ar cy).yearlyWithdrawals.getD
          k default).withdrawals.getD i 0 ≤
        (startOfYearBalances accounts ar
          (calculateWithdrawals accounts profile asm ar cy).yearlyWithdrawals k).getD
            i 0) := by
  intro k hk
  have hinv := foldl_simInv profile asm cy
    (accounts.map (fun acc => ar.finalBalances acc.id)) hr
    (List.range ((profile.lifeExpectancy - profile.retirementAge + 1).toNat))
    (initSimState accounts asm ar) (initSimState_simInv accounts asm ar hb)
  have hspec := goodRecs_spec _ _ hinv.2.2 k hk
  cases k with
  | zero => exact hspec
  | succ k' => exact hspec

/-- C3 witness: the invariants at Scenario A, first simulated year. -/
theorem C3_balance_invariants_witness :
    (∀ b ∈ (scenarioA_result.yearlyWithdrawals.getD 0 default).remainingBalances,
      0 ≤ b) ∧
    (∀ i : ℕ,
      (scenarioA_result.yearlyWithdrawals.getD 0 default).withdrawals.getD i 0 ≤
      (startOfYearBalances scenarioA_accounts scenarioA_accum
        scenarioA_result.yearlyWithdrawals 0).getD i 0) :=
  C3_balance_invariants scenarioA_accounts scenarioA_profile scenarioA_assumptions
    scenarioA_accum 2025
    (by intro acc hacc; fin_cases hacc <;> with_unfolding_all decide)
    (by norm_num [scenarioA_assumptions]) 0 (by with_unfolding_all decide)
